import Mathlib

/-!
Verification of the orbital trajectory simulator (`src/main.py`).

The source is a small numerical program: a motion model
(`équations_mouvement`), a trajectory integrator (`simulation_orbite`)
that builds initial conditions and invokes the external adaptive-step
ODE solver `scipy.integrate.solve_ivp`, a visualizer, and a process
entry point `main`.  We embed the program shallowly over the real
numbers: the pure numeric code becomes Lean functions on `ℝ`, the call
to the external solver is reified as a record of the exact arguments
the code passes (`SolverCall`), the solver's documented interface is a
predicate on possible outcomes (`SolveIvpContract`), and `main`'s
observable behaviour is a list of effects.
-/

namespace OrbitalSim

noncomputable section

/-- Gravitational constant, `src/main.py` line 6. -/
def G : ℝ := 6.67430e-11

/-- Mass of the Earth, `src/main.py` line 7. -/
def M_terre : ℝ := 5.972e24

/-- Radius of the Earth, `src/main.py` line 8. -/
def R_terre : ℝ := 6371e3

/-- The 4-dimensional state vector `[x, y, vx, vy]` used throughout
`src/main.py`: planar position and velocity of the satellite. -/
structure State where
  x : ℝ
  y : ℝ
  vx : ℝ
  vy : ℝ

/-- `np.radians`: degree-to-radian conversion used at line 38. -/
def radians (deg : ℝ) : ℝ := deg * Real.pi / 180

/-- The motion model `«équations_mouvement»(t, y, G, M)` of
`src/main.py` lines 11–20: unpacks the state `[x, y, vx, vy]`, sets
`r = sqrt(x² + y²)`, `ax = -G·M·x/r³`, `ay = -G·M·y/r³`, and returns
the derivative 4-vector `[vx, vy, ax, ay]`.  The time `t` is accepted
and ignored, as in the source.  It is a pure function: the embedding
has no effects. -/
def «équations_mouvement» (t : ℝ) (y : State) (Gc Mc : ℝ) : State :=
  let r := Real.sqrt (y.x ^ 2 + y.y ^ 2)
  { x := y.vx
    y := y.vy
    vx := -Gc * Mc * y.x / r ^ 3
    vy := -Gc * Mc * y.y / r ^ 3 }

/-- `np.linspace a b n` (endpoint included): the `n` evenly spaced
points `a + (b - a)·i/(n-1)` for `i = 0, …, n-1`.  Over the reals the
formula already yields exactly `b` at `i = n-1`, so numpy's explicit
final assignment `y[-1] = stop` is subsumed. -/
def linspace (a b : ℝ) (n : ℕ) : List ℝ :=
  (List.range n).map (fun i : ℕ => a + (b - a) * i / ((n : ℝ) - 1))

/-- The full argument record of the `solve_ivp` invocation at
`src/main.py` lines 50–51: the right-hand-side function, the time span
`t_span = (t0, tf)`, the initial state `y0`, the extra arguments
`args`, the requested output times `t_eval`, and the tolerances. -/
structure SolverCall where
  fn : ℝ → State → ℝ → ℝ → State
  t0 : ℝ
  tf : ℝ
  y0 : State
  args : ℝ × ℝ
  t_eval : List ℝ
  rtol : ℝ
  atol : ℝ

/-- The default simulation duration (`durée=86400` in the signature at
`src/main.py` line 23). -/
def duree_defaut : ℝ := 86400

/-- The trajectory integrator `simulation_orbite` of `src/main.py`
lines 23–52, embedded as the construction of the exact `solve_ivp`
invocation it performs: `angle_rad = radians(angle_deg)`,
`x0 = R_terre + altitude`, `y0 = 0`, `vx0 = v·cos(angle_rad)`,
`vy0 = v·sin(angle_rad)`, `t_span = (0, durée)`,
`t_eval = linspace(0, durée, 10000)`, `args = (G, M_terre)`,
`rtol = 1e-8`, `atol = 1e-10`.  The parameter `masse` is accepted and,
as in the source, never used. -/
def simulation_orbite (masse altitude vitesse_initiale angle_deg duree : ℝ) :
    SolverCall :=
  let angle_rad := radians angle_deg
  let x0 := R_terre + altitude
  let y0 := (0 : ℝ)
  let vx0 := vitesse_initiale * Real.cos angle_rad
  let vy0 := vitesse_initiale * Real.sin angle_rad
  { fn := «équations_mouvement»
    t0 := 0
    tf := duree
    y0 := ⟨x0, y0, vx0, vy0⟩
    args := (G, M_terre)
    t_eval := linspace 0 duree 10000
    rtol := 1e-8
    atol := 1e-10 }

/-- The outcome of a `solve_ivp` run: the returned sample times
`sol.t`, the sampled states (`sol.y`, transposed to a list of states),
and the success flag `sol.success`. -/
structure SolveResult where
  ts : List ℝ
  ys : List State
  success : Bool

/-- Modelled from the documented interface of the external solver
`scipy.integrate.solve_ivp` (not part of this repository): on a
successful run with `t_eval` supplied, the returned times are exactly
`t_eval`, one sampled state is returned per requested time, and the
returned samples are values of the solution of the initial value
problem at the requested times — in particular, the solution value at
the initial time `t0` is the initial condition `y0`, so a sample
requested at `t0` equals `y0`. -/
def SolveIvpContract (call : SolverCall) (sol : SolveResult) : Prop :=
  sol.success = true →
    sol.ts = call.t_eval ∧
    sol.ys.length = call.t_eval.length ∧
    (call.t_eval.head? = some call.t0 → sol.ys.head? = some call.y0) ∧
    ((∀ t ∈ call.t_eval, t = call.t0) → ∀ s ∈ sol.ys, s = call.y0)

end

/-- Observable effects of the process entry point: printing a line, or
invoking the visualizer on a solver result. -/
inductive Effect where
  | print (s : String)
  | visualiser (sol : SolveResult)

/-- `visualiser_orbite` (`src/main.py` lines 55–79) is an external
plotting collaborator; its observable behaviour from the core's point
of view is the single visualization effect on the result it is
handed. -/
def visualiser_orbite (sol : SolveResult) : Effect := .visualiser sol

/-- Whether an effect is an invocation of the visualizer. -/
def Effect.estVisualisation : Effect → Bool
  | .visualiser _ => true
  | .print _ => false

/-- Whether an effect is the failure diagnostic printed at
`src/main.py` line 97. -/
def Effect.estErreurSimulation : Effect → Bool
  | .print s => s == "La simulation a échoué."
  | .visualiser _ => false

/-- Whether an effect is the invalid-input diagnostic printed at
`src/main.py` line 90. -/
def Effect.estErreurEntree : Effect → Bool
  | .print s => s == "Entrée invalide. Veuillez entrer des valeurs numériques."
  | .visualiser _ => false

noncomputable section

/-- Evaluation of a numeric literal on the right-hand side of an
assignment inside the `try` block (`src/main.py` lines 85–88).  In
Python, evaluating and assigning a numeric literal cannot raise
`ValueError` (no conversion of user input occurs in the current code),
so the embedding always succeeds with the literal's value. -/
def litNum (v : ℝ) : Except String ℝ := .ok v

/-- The `try` block of `main` (`src/main.py` lines 84–91): four
assignments of numeric literals, with `ValueError` mapped to the
`Except` error channel. -/
def readParams : Except String (ℝ × ℝ × ℝ × ℝ) :=
  (litNum 1000.0).bind fun masse =>
  (litNum 400000.0).bind fun altitude =>
  (litNum 7800).bind fun vitesse_initiale =>
  (litNum 0.0).bind fun angle_deg =>
  .ok (masse, altitude, vitesse_initiale, angle_deg)

/-- The process entry point `main` (`src/main.py` lines 82–101),
parameterised by an oracle `solver` standing for the external
`solve_ivp` run.  Returns the ordered list of observable effects:
header, then either the invalid-input diagnostic (if the `try` block
failed), or the progress line followed by — depending on the result's
success flag — either the completion line and the visualizer call, or
the single failure diagnostic. -/
def main (solver : SolverCall → SolveResult) : List Effect :=
  [Effect.print "=== Simulateur de Trajectoires Orbitales ==="] ++
  match readParams with
  | .error _ =>
      [Effect.print "Entrée invalide. Veuillez entrer des valeurs numériques."]
  | .ok (masse, altitude, vitesse_initiale, angle_deg) =>
      [Effect.print "Simulation en cours..."] ++
      let sol := solver
        (simulation_orbite masse altitude vitesse_initiale angle_deg duree_defaut)
      if sol.success then
        [Effect.print "Simulation terminée. Affichage de la trajectoire.",
         visualiser_orbite sol]
      else
        [Effect.print "La simulation a échoué."]

end

/- ### Helper lemmas -/

theorem simulation_orbite_t_eval_eq
    (masse altitude vitesse_initiale angle_deg duree : ℝ) :
    (simulation_orbite masse altitude vitesse_initiale angle_deg duree).t_eval
      = linspace 0 duree 10000 := by
  simp only [simulation_orbite]

theorem simulation_orbite_t0_eq
    (masse altitude vitesse_initiale angle_deg duree : ℝ) :
    (simulation_orbite masse altitude vitesse_initiale angle_deg duree).t0
      = 0 := rfl

theorem linspace_length (a b : ℝ) (n : ℕ) : (linspace a b n).length = n := by
  unfold linspace
  rw [List.length_map, List.length_range]

theorem linspace_getD (a b : ℝ) (n i : ℕ) (h : i < n) :
    (linspace a b n).getD i 0 = a + (b - a) * i / ((n : ℝ) - 1) := by
  unfold linspace
  rw [List.getD_eq_getElem?_getD, List.getElem?_map, List.getElem?_range h]
  rfl

theorem linspace_head? (a b : ℝ) (n : ℕ) (h : 0 < n) :
    (linspace a b n).head? = some a := by
  cases n with
  | zero => omega
  | succ m => simp [linspace, List.range_succ_eq_map]

/- ### C1 -/

/-- C1: for every time `t` and state `(x, y, vx, vy)` with
`r = sqrt(x² + y²) ≠ 0`, the motion model `équations_mouvement`
returns exactly the 4-vector `(vx, vy, -G·M·x/r³, -G·M·y/r³)` (it is a
pure function, so there are no side effects). -/
theorem equations_mouvement_spec (t x y vx vy Gc Mc : ℝ)
    (h : Real.sqrt (x ^ 2 + y ^ 2) ≠ 0) :
    «équations_mouvement» t ⟨x, y, vx, vy⟩ Gc Mc =
      ⟨vx, vy,
        -Gc * Mc * x / Real.sqrt (x ^ 2 + y ^ 2) ^ 3,
        -Gc * Mc * y / Real.sqrt (x ^ 2 + y ^ 2) ^ 3⟩ := rfl

/-- Witness for C1 at the concrete state `(3, 4, 5, 6)` with `t = 0`,
`G = 1`, `M = 2`: there `r = sqrt 25 = 5 ≠ 0`. -/
theorem equations_mouvement_spec_witness :
    Real.sqrt ((3 : ℝ) ^ 2 + 4 ^ 2) ≠ 0 ∧
    «équations_mouvement» 0 ⟨3, 4, 5, 6⟩ 1 2 =
      ⟨5, 6,
        -1 * 2 * 3 / Real.sqrt ((3 : ℝ) ^ 2 + 4 ^ 2) ^ 3,
        -1 * 2 * 4 / Real.sqrt ((3 : ℝ) ^ 2 + 4 ^ 2) ^ 3⟩ := by
  have h : Real.sqrt ((3 : ℝ) ^ 2 + 4 ^ 2) ≠ 0 := by
    have : (0 : ℝ) < Real.sqrt ((3 : ℝ) ^ 2 + 4 ^ 2) :=
      Real.sqrt_pos.mpr (by norm_num)
    exact ne_of_gt this
  exact ⟨h, equations_mouvement_spec 0 3 4 5 6 1 2 h⟩

/- ### C2 -/

/-- C2: for every call to `simulation_orbite (altitude, speed,
angle_deg)`, the initial condition passed to the solver is exactly
`x0 = R + altitude`, `y0 = 0`, `vx0 = speed·cos(radians angle_deg)`,
`vy0 = speed·sin(radians angle_deg)`, the angle being converted from
degrees to radians internally (`radians d = d·π/180`). -/
theorem simulation_orbite_initial_condition
    (masse altitude vitesse_initiale angle_deg duree : ℝ) :
    (simulation_orbite masse altitude vitesse_initiale angle_deg duree).y0 =
      ⟨R_terre + altitude, 0,
        vitesse_initiale * Real.cos (angle_deg * Real.pi / 180),
        vitesse_initiale * Real.sin (angle_deg * Real.pi / 180)⟩ := rfl

/- ### C4 -/

/-- C4: every invocation of `simulation_orbite` configures the solver
over the motion model with `rtol = 1e-8`, `atol = 1e-10`, and passes
the constants `G` and `M_terre` explicitly as the extra arguments
handed to `équations_mouvement`. -/
theorem simulation_orbite_solver_config
    (masse altitude vitesse_initiale angle_deg duree : ℝ) :
    (simulation_orbite masse altitude vitesse_initiale angle_deg duree).rtol
        = 1e-8 ∧
    (simulation_orbite masse altitude vitesse_initiale angle_deg duree).atol
        = 1e-10 ∧
    (simulation_orbite masse altitude vitesse_initiale angle_deg duree).args
        = (G, M_terre) ∧
    (simulation_orbite masse altitude vitesse_initiale angle_deg duree).fn
        = «équations_mouvement» :=
  ⟨rfl, rfl, rfl, rfl⟩

/- ### C5 -/

/-- C5: the force field of the motion model is central: for every
state with `r = sqrt(x² + y²) ≠ 0`, the derivative
`(x', y', ax, ay) = «équations_mouvement» t (x, y, vx, vy) G M`
satisfies `x·ay − y·ax = 0`, and hence the time-derivative of the
angular momentum `L = x·vy − y·vx` along the field,
`x·ay + x'·vy − (y·ax + y'·vx)`, equals `0`; this is the exact-field
identity from which conservation of `L` along exact solutions
follows. -/
theorem equations_mouvement_central (t x y vx vy Gc Mc : ℝ)
    (h : Real.sqrt (x ^ 2 + y ^ 2) ≠ 0) :
    x * («équations_mouvement» t ⟨x, y, vx, vy⟩ Gc Mc).vy -
      y * («équations_mouvement» t ⟨x, y, vx, vy⟩ Gc Mc).vx = 0 ∧
    x * («équations_mouvement» t ⟨x, y, vx, vy⟩ Gc Mc).vy +
      («équations_mouvement» t ⟨x, y, vx, vy⟩ Gc Mc).x * vy -
      (y * («équations_mouvement» t ⟨x, y, vx, vy⟩ Gc Mc).vx +
        («équations_mouvement» t ⟨x, y, vx, vy⟩ Gc Mc).y * vx) = 0 := by
  constructor <;> (simp only [«équations_mouvement»]; ring)

/-- Witness for C5 at the concrete state `(3, 4, 5, 6)` with `t = 0`,
`G = 1`, `M = 2`, where `r = sqrt 25 ≠ 0`. -/
theorem equations_mouvement_central_witness :
    Real.sqrt ((3 : ℝ) ^ 2 + 4 ^ 2) ≠ 0 ∧
    (3 * («équations_mouvement» 0 ⟨3, 4, 5, 6⟩ 1 2).vy -
      4 * («équations_mouvement» 0 ⟨3, 4, 5, 6⟩ 1 2).vx = 0 ∧
    3 * («équations_mouvement» 0 ⟨3, 4, 5, 6⟩ 1 2).vy +
      («équations_mouvement» 0 ⟨3, 4, 5, 6⟩ 1 2).x * 6 -
      (4 * («équations_mouvement» 0 ⟨3, 4, 5, 6⟩ 1 2).vx +
        («équations_mouvement» 0 ⟨3, 4, 5, 6⟩ 1 2).y * 5) = 0) := by
  have h : Real.sqrt ((3 : ℝ) ^ 2 + 4 ^ 2) ≠ 0 :=
    ne_of_gt (Real.sqrt_pos.mpr (by norm_num))
  exact ⟨h, equations_mouvement_central 0 3 4 5 6 1 2 h⟩

/- ### C6 -/

/-- C6: the result of `simulation_orbite` does not depend on the
satellite-mass parameter: for any two masses and identical remaining
parameters the constructed solver invocations are identical. -/
theorem simulation_orbite_mass_independent
    (m₁ m₂ altitude vitesse_initiale angle_deg duree : ℝ) :
    simulation_orbite m₁ altitude vitesse_initiale angle_deg duree =
      simulation_orbite m₂ altitude vitesse_initiale angle_deg duree := rfl


/- ### C3 -/

/-- C3: for every duration, the integrator requests exactly 10000
evenly spaced output times spanning `[0, duration]`: the list of
requested times has length 10000, its first entry is `0`, its last
entry (index 9999) is the duration, and consecutive entries differ by
`duration/9999`. -/
theorem simulation_orbite_t_eval_spec
    (masse altitude vitesse_initiale angle_deg duree : ℝ) :
    (simulation_orbite masse altitude vitesse_initiale angle_deg
        duree).t_eval.length = 10000 ∧
    (simulation_orbite masse altitude vitesse_initiale angle_deg
        duree).t_eval.getD 0 0 = 0 ∧
    (simulation_orbite masse altitude vitesse_initiale angle_deg
        duree).t_eval.getD 9999 0 = duree ∧
    ∀ i : ℕ, i + 1 < 10000 →
      (simulation_orbite masse altitude vitesse_initiale angle_deg
          duree).t_eval.getD (i + 1) 0 -
        (simulation_orbite masse altitude vitesse_initiale angle_deg
            duree).t_eval.getD i 0 = duree / 9999 := by
  have hte := simulation_orbite_t_eval_eq masse altitude vitesse_initiale
    angle_deg duree
  refine ⟨?_, ?_, ?_, ?_⟩
  · rw [hte, linspace_length]
  · rw [hte, linspace_getD 0 duree 10000 0 (by norm_num)]
    norm_num
  · rw [hte, linspace_getD 0 duree 10000 9999 (by norm_num)]
    norm_num
  · intro i hi
    rw [hte, linspace_getD 0 duree 10000 (i + 1) hi,
      linspace_getD 0 duree 10000 i (by omega)]
    push_cast
    field_simp
    ring

/-- Witness for C3: at the concrete call
`simulation_orbite 1000 400000 7800 0 86400`, the gap between the
requested times at indices 1 and 0 is `86400/9999`. -/
theorem simulation_orbite_t_eval_spec_witness :
    (simulation_orbite 1000 400000 7800 0 86400).t_eval.getD 1 0 -
      (simulation_orbite 1000 400000 7800 0 86400).t_eval.getD 0 0 =
        86400 / 9999 :=
  (simulation_orbite_t_eval_spec 1000 400000 7800 0 86400).2.2.2 0 (by norm_num)

/- ### shared helpers for the example scenario -/

theorem y0_exemple (d : ℝ) :
    (simulation_orbite 1000 400000 7800 0 d).y0 = ⟨6771000, 0, 7800, 0⟩ := by
  show (⟨R_terre + 400000, 0, 7800 * Real.cos (radians 0),
        7800 * Real.sin (radians 0)⟩ : State) = ⟨6771000, 0, 7800, 0⟩
  simp [radians, R_terre]
  norm_num

/-- A concrete solver outcome for the example parameters used as a
witness: success, with the 10000 samples all equal to the initial
state. -/
noncomputable def solConstante (d : ℝ) : SolveResult :=
  ⟨(simulation_orbite 1000 400000 7800 0 d).t_eval,
   ⟨6771000, 0, 7800, 0⟩ :: List.replicate 9999 ⟨6771000, 0, 7800, 0⟩,
   true⟩

theorem solConstante_contract (d : ℝ) :
    SolveIvpContract (simulation_orbite 1000 400000 7800 0 d)
      (solConstante d) := by
  intro _
  refine ⟨?_, ?_, ?_, ?_⟩
  · simp only [solConstante]
  · rw [simulation_orbite_t_eval_eq, linspace_length]
    simp only [solConstante, List.length_cons, List.length_replicate]
  · intro _
    rw [y0_exemple]
    simp only [solConstante, List.head?_cons]
  · intro _ s hs
    simp only [solConstante] at hs
    have hsv : s = (⟨6771000, 0, 7800, 0⟩ : State) := by
      rcases List.mem_cons.mp hs with h | h
      · exact h
      · exact List.eq_of_mem_replicate h
    rw [hsv, y0_exemple]

/- ### C7 -/

/-- C7: for the example scenario (mass 1000, altitude 400000, speed
7800, angle 0°, default duration 86400), any successful outcome
respecting the solver interface contains 10000 samples and its first
sample equals the initial condition `(6771000, 0, 7800, 0)`. -/
theorem exemple_scenario (sol : SolveResult)
    (hc : SolveIvpContract (simulation_orbite 1000 400000 7800 0 86400) sol)
    (hs : sol.success = true) :
    sol.ys.length = 10000 ∧ sol.ys.head? = some ⟨6771000, 0, 7800, 0⟩ := by
  obtain ⟨hts, hlen, hhead, hall⟩ := hc hs
  constructor
  · rw [hlen, simulation_orbite_t_eval_eq, linspace_length]
  · have h0 : (simulation_orbite 1000 400000 7800 0 86400).t_eval.head? =
        some (simulation_orbite 1000 400000 7800 0 86400).t0 := by
      rw [simulation_orbite_t_eval_eq, simulation_orbite_t0_eq]
      exact linspace_head? 0 86400 10000 (by norm_num)
    rw [hhead h0, y0_exemple]

/-- Witness for C7: the concrete successful outcome `solConstante
86400` satisfies the contract and the conclusion. -/
theorem exemple_scenario_witness :
    (solConstante 86400).ys.length = 10000 ∧
    (solConstante 86400).ys.head? = some ⟨6771000, 0, 7800, 0⟩ :=
  exemple_scenario (solConstante 86400) (solConstante_contract 86400) rfl

/- ### C8 -/

theorem mem_linspace_self (a : ℝ) (n : ℕ) (t : ℝ) (ht : t ∈ linspace a a n) :
    t = a := by
  simp only [linspace, List.mem_map, List.mem_range] at ht
  obtain ⟨i, -, hi⟩ := ht
  rw [← hi]
  ring

/-- C8 counterexample: with duration 0 the integrator does not request
a single sample — it still requests `linspace(0, 0, 10000)`, a list of
10000 sample times. -/
theorem duree_nulle_counterexample :
    (simulation_orbite 1000 400000 7800 0 0).t_eval.length = 10000 ∧
    (10000 : ℕ) ≠ 1 := by
  constructor
  · rw [simulation_orbite_t_eval_eq, linspace_length]
  · norm_num

/-- C8 (amended): calling the integrator with duration 0 yields a
trajectory of 10000 samples (not one): every requested sample time is
0, and, for any successful outcome respecting the solver interface,
every one of the 10000 sampled states equals the initial condition. -/
theorem duree_nulle (masse altitude vitesse_initiale angle_deg : ℝ)
    (sol : SolveResult)
    (hc : SolveIvpContract
      (simulation_orbite masse altitude vitesse_initiale angle_deg 0) sol)
    (hs : sol.success = true) :
    (∀ t ∈ (simulation_orbite masse altitude vitesse_initiale
        angle_deg 0).t_eval, t = 0) ∧
    sol.ys.length = 10000 ∧
    ∀ s ∈ sol.ys,
      s = (simulation_orbite masse altitude vitesse_initiale angle_deg 0).y0 := by
  obtain ⟨hts, hlen, hhead, hall⟩ := hc hs
  refine ⟨?_, ?_, ?_⟩
  · intro t ht
    rw [simulation_orbite_t_eval_eq] at ht
    exact mem_linspace_self 0 10000 t ht
  · rw [hlen, simulation_orbite_t_eval_eq, linspace_length]
  · refine hall ?_
    intro t ht
    rw [simulation_orbite_t_eval_eq] at ht
    rw [simulation_orbite_t0_eq]
    exact mem_linspace_self 0 10000 t ht

/-- Witness for C8 (amended): the concrete successful outcome
`solConstante 0` satisfies the contract at duration 0 and the
conclusion. -/
theorem duree_nulle_witness :
    (∀ t ∈ (simulation_orbite 1000 400000 7800 0 0).t_eval, t = 0) ∧
    (solConstante 0).ys.length = 10000 ∧
    ∀ s ∈ (solConstante 0).ys,
      s = (simulation_orbite 1000 400000 7800 0 0).y0 :=
  duree_nulle 1000 400000 7800 0 (solConstante 0) (solConstante_contract 0) rfl

/- ### C9 -/

/-- C9: `main` inspects the success flag of the integrator's result:
if success is false, its observable behaviour is exactly the header,
the progress line and one error diagnostic, with no visualizer
invocation; if success is true, it is the header, the progress line,
the completion line and the visualizer invoked on the result.  As the
flag is boolean, the two implications together say the visualizer runs
if and only if success is true. -/
theorem main_verifie_success (solver : SolverCall → SolveResult) :
    ((solver (simulation_orbite 1000.0 400000.0 7800 0.0
        duree_defaut)).success = false →
      main solver =
        [Effect.print "=== Simulateur de Trajectoires Orbitales ===",
         Effect.print "Simulation en cours...",
         Effect.print "La simulation a échoué."]) ∧
    ((solver (simulation_orbite 1000.0 400000.0 7800 0.0
        duree_defaut)).success = true →
      main solver =
        [Effect.print "=== Simulateur de Trajectoires Orbitales ===",
         Effect.print "Simulation en cours...",
         Effect.print "Simulation terminée. Affichage de la trajectoire.",
         Effect.visualiser
           (solver (simulation_orbite 1000.0 400000.0 7800 0.0
             duree_defaut))]) := by
  constructor <;> intro h <;>
    simp [main, readParams, litNum, Except.bind, visualiser_orbite, h]

/-- A solver oracle whose run fails, used as a witness. -/
def solverEchec : SolverCall → SolveResult := fun _ => ⟨[], [], false⟩

/-- Witness for C9: under the always-failing solver oracle, `main`
prints the single failure diagnostic and does not visualize. -/
theorem main_verifie_success_witness :
    main solverEchec =
      [Effect.print "=== Simulateur de Trajectoires Orbitales ===",
       Effect.print "Simulation en cours...",
       Effect.print "La simulation a échoué."] :=
  (main_verifie_success solverEchec).1 rfl

/- ### C10 -/

/-- C10: the invalid-input branch of `main` is unreachable: the `try`
block contains only assignments of numeric literals, so it always
yields exactly `masse = 1000`, `altitude = 400000`,
`vitesse_initiale = 7800`, `angle_deg = 0`, and no execution of `main`
ever emits the invalid-input diagnostic. -/
theorem entree_invalide_inatteignable :
    readParams = Except.ok ((1000 : ℝ), (400000 : ℝ), (7800 : ℝ), (0 : ℝ)) ∧
    ∀ solver : SolverCall → SolveResult,
      Effect.print "Entrée invalide. Veuillez entrer des valeurs numériques."
        ∉ main solver := by
  constructor
  · simp only [readParams, litNum, Except.bind]
    norm_num
  · intro solver
    cases h : (solver (simulation_orbite 1000.0 400000.0 7800 0.0
        duree_defaut)).success <;>
      simp [main, readParams, litNum, Except.bind, visualiser_orbite, h]

end OrbitalSim
